/-
Verification of the argument-resolution core of the ml4h repository
(`ml4h/arguments.py`): tensor-map identifier lookup, u-connect and pair
processing, content-addressed identifier generation, and `_process_args`.

The embedding is shallow: Python functions become Lean functions, raised
exceptions become `Except.error`, Python `None` results become `Option.none`,
and the file written by `_process_args` becomes an explicit effect value.
Code of the repository that is not part of `arguments.py` (the `TensorMap`
class, `parent_sort`, the tensor-map generator functions, logging setup) is
modelled from the specification, as noted on each such definition.
-/
import Mathlib

namespace ML4H

/-- Python exception values raised by the argument-resolution code.
Each constructor carries the message built at the raise site. -/
inductive PyError where
  | typeError (msg : String)
  | valueError (msg : String)
  | moduleNotFoundError (msg : String)
  | attributeError (msg : String)
  | indexError (msg : String)
deriving DecidableEq, Repr

/-- Modelled from the spec: a `TensorMap` ("feature descriptor") is "a named
specification of how to extract/shape one input or output signal for a model".
The class itself lives in `ml4h/TensorMap.py`, which is not among the source
files; the fields here are the ones `arguments.py` reads: the name, the shape
tuple (`tm.shape`), and the declared parent dependencies used by the
dependency sort. -/
structure TensorMap where
  name : String
  shape : List Nat
  parents : List String
deriving DecidableEq, Repr

/-- Modelled from the spec: `tm.axes()` is the number of axes of the shape
tuple (a "1d TensorMap" has fewer than 2 axes). -/
def TensorMap.axes (tm : TensorMap) : Nat := tm.shape.length

/-- Modelled from the spec: the string representation `str(tm)` of a feature
descriptor, used by the content-addressed identifier generators.  The claims
about the generators only condition on equality of these strings. -/
def TensorMap.pyStr (tm : TensorMap) : String := tm.name

/-- A Python attribute value found in an imported module: either a `TensorMap`
object or a value of some other type (whose type name the error message
shows). -/
inductive PyAttr where
  | tmap (tm : TensorMap)
  | other (tyName : String)
deriving DecidableEq, Repr

/-- An importable Python module, reduced to its attribute dictionary. -/
structure PyModule where
  attrs : String → Option PyAttr

/-- The external world `arguments.py` calls into.  `mgbDynamic` and `testMaps`
model `make_mgb_dynamic_tensor_maps` and `make_test_tensor_maps` (repository
code outside the source files: per the spec, "the tensor-map lookup/generation
functions (file-backed feature extraction)" are external collaborators);
`some tm` means the call returned a `TensorMap` instance, `none` that it
returned anything else, so the `isinstance` guard fails and lookup continues.
`modules` models `importlib.import_module`: `none` means the import raises
`ModuleNotFoundError`. -/
structure Env where
  mgbDynamic : String → Option TensorMap
  testMaps : String → Option TensorMap
  modules : String → Option PyModule

/-- Split a character list at every dot, keeping empty pieces, as Python
`s.split('.')` does; the result is always nonempty. -/
def splitDotChars : List Char → List (List Char)
  | [] => [[]]
  | c :: cs =>
    match splitDotChars cs, decEq c (Char.ofNat 46) with
    | r, isTrue _ => [] :: r
    | [], isFalse _ => [[c]]
    | h :: t, isFalse _ => (c :: h) :: t

/-- Python `s.split('.')`, which always returns a nonempty list. -/
def pySplitDot (s : String) : List String :=
  (splitDotChars s.data).map String.mk

/-- The `path_string` `tensormap_lookup` assembles (lines 458, 463): the
prefix joined to the identifier when a prefix is given (`if prefix:`),
otherwise the identifier itself. -/
def pathStringOf (module_string pfx : String) : String :=
  if pfx ≠ "" then String.intercalate "." [pfx, module_string] else module_string

/-- The module part `'.'.join(path_string.split('.')[:-1])` of the assembled
path (line 472). -/
def moduleNameOf (module_string pfx : String) : String :=
  String.intercalate "." ((pySplitDot (pathStringOf module_string pfx)).dropLast)

/-- The attribute part `path_string.split('.')[-1]` of the assembled path
(line 476); the split list is never empty, so the last element exists. -/
def attrNameOf (module_string pfx : String) : String :=
  (pySplitDot (pathStringOf module_string pfx)).getLastD ""

/-- `tensormap_lookup(module_string, prefix)` from `ml4h/arguments.py`
(lines 445-483).  The two dynamic-map constructors are tried first; then the
input is validated, the module path is assembled, the module is imported and
the attribute fetched.  The `isinstance(module_string, str)` and
`isinstance(prefix, str)` guards are vacuous in this string-typed embedding,
and `len(prefix) == 0` is unreachable under `if prefix:`; they are omitted.
The source raises the `ml4h.tensormap.*` `ValueError` exactly when the prefix
is empty and the identifier's first two components miss that root, which the
combined condition below states; otherwise the path is `pathStringOf`.
On `AttributeError` the source logs a warning and returns `None`
(`Except.ok none` here): the `raise AttributeError` line is commented out. -/
def tensormap_lookup (env : Env) (module_string : String) (pfx : String) :
    Except PyError (Option TensorMap) :=
  match env.mgbDynamic module_string with
  | some tm => Except.ok (some tm)
  | none =>
    match env.testMaps module_string with
    | some tm => Except.ok (some tm)
    | none =>
      if module_string.length = 0 then
        Except.error (PyError.valueError "Input name cannot be empty.")
      else if pfx = "" ∧
          String.intercalate "." ((pySplitDot module_string).take 2) ≠
            "ml4h.tensormap" then
        Except.error (PyError.valueError
          ("TensorMaps must reside in the path ml4h.tensormap.*. Given: "
            ++ module_string))
      else
        match env.modules (moduleNameOf module_string pfx) with
        | none =>
          Except.error (PyError.moduleNotFoundError
            ("Could not resolve library " ++ moduleNameOf module_string pfx
              ++ " for target tensormap " ++ module_string))
        | some m =>
          match m.attrs (attrNameOf module_string pfx) with
          | none => Except.ok none
          | some (PyAttr.tmap tm) => Except.ok (some tm)
          | some (PyAttr.other ty) =>
            Except.error (PyError.typeError
              ("Target value is not a TensorMap object. Returned: " ++ ty))

/-- Accessing `.shape` (or any attribute) on a Python `None` raises
`AttributeError`; `_process_u_connect_args` does exactly that when
`tensormap_lookup` returned `None`. -/
def noneAttributeError : PyError :=
  PyError.attributeError "NoneType object has no attribute shape"

/-- The defaultdict update `new_u_connect[tmap_in].add(tmap_out)`: insert `b`
into the set at key `a`, every absent key holding the empty set. -/
def adjInsert (m : TensorMap → Finset TensorMap) (a b : TensorMap) :
    TensorMap → Finset TensorMap :=
  fun x => if x = a then insert b (m a) else m x

/-- The message of the shape-mismatch `TypeError` in
`_process_u_connect_args` (line 493). -/
def uConnectShapeMsg (tin tout : TensorMap) : String :=
  "u_connect of " ++ tin.pyStr ++ " " ++ tout.pyStr
    ++ " requires matching shapes besides channel dimension."

/-- The message of the 1d-TensorMap `TypeError` in `_process_u_connect_args`
(line 495). -/
def uConnect1dMsg (tin tout : TensorMap) : String :=
  "Cannot u_connect 1d TensorMaps (" ++ tin.pyStr ++ " " ++ tout.pyStr ++ ")."

/-- One iteration of the `_process_u_connect_args` loop (lines 489-496): look
up both keys, compare shapes up to the last (channel) axis, reject
1-dimensional maps, then record the edge in the adjacency mapping. -/
def processUConnectPair (env : Env) (tmapPfx : String)
    (m : TensorMap → Finset TensorMap) (connect_pair : String × String) :
    Except PyError (TensorMap → Finset TensorMap) :=
  match tensormap_lookup env connect_pair.1 tmapPfx with
  | Except.error e => Except.error e
  | Except.ok oin =>
    match tensormap_lookup env connect_pair.2 tmapPfx with
    | Except.error e => Except.error e
    | Except.ok oout =>
      match oin with
      | none => Except.error noneAttributeError
      | some tmap_in =>
        match oout with
        | none => Except.error noneAttributeError
        | some tmap_out =>
          if tmap_in.shape.dropLast ≠ tmap_out.shape.dropLast then
            Except.error (PyError.typeError (uConnectShapeMsg tmap_in tmap_out))
          else if tmap_in.axes < 2 ∨ tmap_out.axes < 2 then
            Except.error (PyError.typeError (uConnect1dMsg tmap_in tmap_out))
          else
            Except.ok (adjInsert m tmap_in tmap_out)

/-- The `for connect_pair in u_connect` loop, threading the defaultdict. -/
def uConnectLoop (env : Env) (tmapPfx : String) :
    List (String × String) → (TensorMap → Finset TensorMap) →
    Except PyError (TensorMap → Finset TensorMap)
  | [], m => Except.ok m
  | p :: rest, m =>
    match processUConnectPair env tmapPfx m p with
    | Except.error e => Except.error e
    | Except.ok m2 => uConnectLoop env tmapPfx rest m2

/-- `_process_u_connect_args(u_connect, tensormap_prefix)` from
`ml4h/arguments.py` (lines 486-497).  `u_connect or []` turns an absent flag
into the empty list; the adjacency mapping is a `defaultdict(set)`, modelled
as a total function defaulting to the empty set. -/
def processUConnectArgs (env : Env) (u_connect : Option (List (String × String)))
    (tmapPfx : String) : Except PyError (TensorMap → Finset TensorMap) :=
  uConnectLoop env tmapPfx (u_connect.getD []) (fun _ => ∅)

/-- The `for pair in pairs` loop of `_process_pair_args` (`ml4h/arguments.py`
lines 500-505): resolve both members of each declared pair, in declaration
order.  The lookups' `None` results are appended as-is (the source performs no
`None` check here), hence the `Option` components. -/
def pairLoop (env : Env) (tmapPfx : String) :
    List (String × String) →
    Except PyError (List (Option TensorMap × Option TensorMap))
  | [] => Except.ok []
  | p :: rest =>
    match tensormap_lookup env p.1 tmapPfx with
    | Except.error e => Except.error e
    | Except.ok o1 =>
      match tensormap_lookup env p.2 tmapPfx with
      | Except.error e => Except.error e
      | Except.ok o2 =>
        match pairLoop env tmapPfx rest with
        | Except.error e => Except.error e
        | Except.ok l => Except.ok ((o1, o2) :: l)

/-- `_process_pair_args` proper: `pairs or []`, then the resolution loop. -/
def processPairArgs (env : Env) (pairs : Option (List (String × String)))
    (tmapPfx : String) :
    Except PyError (List (Option TensorMap × Option TensorMap)) :=
  pairLoop env tmapPfx (pairs.getD [])

/-- UTF-8 encoding of one character, as `str.encode("utf-8")` produces it. -/
def utf8Bytes (c : Char) : List Nat :=
  let n := c.toNat
  if n < 0x80 then [n]
  else if n < 0x800 then [0xC0 + n / 64, 0x80 + n % 64]
  else if n < 0x10000 then
    [0xE0 + n / 4096, 0x80 + n / 64 % 64, 0x80 + n % 64]
  else
    [0xF0 + n / 262144, 0x80 + n / 4096 % 64, 0x80 + n / 64 % 64, 0x80 + n % 64]

/-- `s.encode("utf-8")` as a byte list. -/
def strUtf8 (s : String) : List Nat :=
  s.data.foldr (fun c acc => utf8Bytes c ++ acc) []

/-- 32-bit right rotation on naturals below `2 ^ 32`. -/
def rotr32 (x k : Nat) : Nat := (x / 2 ^ k + x % 2 ^ k * 2 ^ (32 - k)) % 2 ^ 32

/-- 32-bit bitwise complement of a natural below `2 ^ 32`. -/
def not32 (x : Nat) : Nat := 4294967295 - x

/-- The SHA-256 round constants, in decimal. -/
def shaK : List Nat :=
  [
    1116352408, 1899447441, 3049323471, 3921009573, 961987163,
    1508970993, 2453635748, 2870763221, 3624381080, 310598401,
    607225278, 1426881987, 1925078388, 2162078206, 2614888103,
    3248222580, 3835390401, 4022224774, 264347078, 604807628,
    770255983, 1249150122, 1555081692, 1996064986, 2554220882,
    2821834349, 2952996808, 3210313671, 3336571891, 3584528711,
    113926993, 338241895, 666307205, 773529912, 1294757372,
    1396182291, 1695183700, 1986661051, 2177026350, 2456956037,
    2730485921, 2820302411, 3259730800, 3345764771, 3516065817,
    3600352804, 4094571909, 275423344, 430227734, 506948616,
    659060556, 883997877, 958139571, 1322822218, 1537002063,
    1747873779, 1955562222, 2024104815, 2227730452, 2361852424,
    2428436474, 2756734187, 3204031479, 3329325298,
  ]

/-- The SHA-256 initial hash value, in decimal. -/
def shaH0 : List Nat :=
  [
    1779033703, 3144134277, 1013904242, 2773480762,
    1359893119, 2600822924, 528734635, 1541459225,
  ]

/-- Pad a byte message to a multiple of 64 bytes: `0x80`, zeros, then the
bit length as 8 big-endian bytes. -/
def padMessage (msg : List Nat) : List Nat :=
  let L := msg.length
  let z := (119 - L % 64) % 64
  msg ++ 0x80 :: List.replicate z 0
    ++ (List.range 8).map (fun i => 8 * L / 2 ^ (8 * (7 - i)) % 256)

/-- Group bytes four at a time into big-endian 32-bit words. -/
def bytesToWords : List Nat → List Nat
  | a :: b :: c :: d :: rest =>
    (((a * 256 + b) * 256 + c) * 256 + d) :: bytesToWords rest
  | _ => []

/-- Split a byte list into 64-byte chunks (fuel-indexed for structural
recursion). -/
def chunks64Go : Nat → List Nat → List (List Nat)
  | 0, _ => []
  | _, [] => []
  | fuel + 1, x :: xs => (x :: xs.take 63) :: chunks64Go fuel (xs.drop 63)

/-- Split a byte list into 64-byte chunks. -/
def chunks64 (l : List Nat) : List (List Nat) := chunks64Go l.length l

/-- Extend the 16-word message schedule by `n` further words. -/
def extendLoop : Nat → List Nat → List Nat
  | 0, w => w
  | n + 1, w =>
    let i := w.length
    let s0 := rotr32 (w.getD (i - 15) 0) 7 ^^^ rotr32 (w.getD (i - 15) 0) 18
      ^^^ w.getD (i - 15) 0 / 2 ^ 3
    let s1 := rotr32 (w.getD (i - 2) 0) 17 ^^^ rotr32 (w.getD (i - 2) 0) 19
      ^^^ w.getD (i - 2) 0 / 2 ^ 10
    extendLoop n (w ++ [(w.getD (i - 16) 0 + s0 + w.getD (i - 7) 0 + s1) % 2 ^ 32])

/-- The eight working variables of the SHA-256 compression function. -/
structure SHAState where
  a : Nat
  b : Nat
  c : Nat
  d : Nat
  e : Nat
  f : Nat
  g : Nat
  h : Nat

/-- One SHA-256 compression round. -/
def shaRound (s : SHAState) (kw : Nat × Nat) : SHAState :=
  let S1 := rotr32 s.e 6 ^^^ rotr32 s.e 11 ^^^ rotr32 s.e 25
  let ch := s.e &&& s.f ^^^ (not32 s.e &&& s.g)
  let temp1 := (s.h + S1 + ch + kw.1 + kw.2) % 2 ^ 32
  let S0 := rotr32 s.a 2 ^^^ rotr32 s.a 13 ^^^ rotr32 s.a 22
  let maj := s.a &&& s.b ^^^ (s.a &&& s.c) ^^^ (s.b &&& s.c)
  let temp2 := (S0 + maj) % 2 ^ 32
  ⟨(temp1 + temp2) % 2 ^ 32, s.a, s.b, s.c, (s.d + temp1) % 2 ^ 32, s.e, s.f, s.g⟩

/-- Process one 64-byte chunk, updating the eight-word hash value. -/
def processChunk (hv : List Nat) (chunk : List Nat) : List Nat :=
  let w := extendLoop 48 (bytesToWords chunk)
  let s0 : SHAState :=
    ⟨hv.getD 0 0, hv.getD 1 0, hv.getD 2 0, hv.getD 3 0,
      hv.getD 4 0, hv.getD 5 0, hv.getD 6 0, hv.getD 7 0⟩
  let s := (shaK.zip w).foldl shaRound s0
  [
    (hv.getD 0 0 + s.a) % 2 ^ 32, (hv.getD 1 0 + s.b) % 2 ^ 32,
    (hv.getD 2 0 + s.c) % 2 ^ 32, (hv.getD 3 0 + s.d) % 2 ^ 32,
    (hv.getD 4 0 + s.e) % 2 ^ 32, (hv.getD 5 0 + s.f) % 2 ^ 32,
    (hv.getD 6 0 + s.g) % 2 ^ 32, (hv.getD 7 0 + s.h) % 2 ^ 32,
  ]

/-- SHA-256 of a byte message, as eight 32-bit words. -/
def sha256Words (msg : List Nat) : List Nat :=
  (chunks64 (padMessage msg)).foldl processChunk shaH0

/-- Lower-case hexadecimal digit. -/
def hexDigit (n : Nat) : Char :=
  if n < 10 then Char.ofNat (48 + n) else Char.ofNat (87 + n)

/-- Eight hex characters of one 32-bit word, most significant first. -/
def wordHex (v : Nat) : List Char :=
  (List.range 8).map (fun i => hexDigit (v / 16 ^ (7 - i) % 16))

/-- `hashlib.sha256(s.encode("utf-8")).hexdigest()`: the lower-case
hexadecimal SHA-256 digest of the UTF-8 encoding of `s`. -/
def sha256Hexdigest (s : String) : String :=
  String.mk ((sha256Words (strUtf8 s)).foldr (fun w acc => wordHex w ++ acc) [])

/-- `generate_tensormap_id(tm)` from `ml4h/arguments.py` (lines 508-509). -/
def generate_tensormap_id (tm : TensorMap) : String :=
  sha256Hexdigest tm.pyStr

/-- `generate_model_id(model_name, tensor_maps_in, tensor_maps_out)` from
`ml4h/arguments.py` (lines 512-516).  Note the body never reads
`model_name`. -/
def generate_model_id (model_name : String) (tensor_maps_in : List TensorMap)
    (tensor_maps_out : List TensorMap) : String :=
  let str_i := String.intercalate "_" (tensor_maps_in.map TensorMap.pyStr)
  let str_o := String.intercalate "_" (tensor_maps_out.map TensorMap.pyStr)
  let model_str := str_i ++ "&" ++ str_o
  sha256Hexdigest model_str

example :
    sha256Hexdigest "" =
      "e3b0c44298fc1c149afbf4c8996fb92427ae41e4649b934ca495991b7852b855" := by
  rfl

example :
    sha256Hexdigest "abc" =
      "ba7816bf8f01cfea414140de5dae2223b00361a396177a9cb410ff61f20015ad" := by
  rfl

/-- The parsed argument namespace, restricted to the ~30 fields `_process_args`
reads (`ml4h/arguments.py` lines 519-601) plus `parent_sort` and
`named_outputs`, which `parse_args` declares (lines 437, 439) but
`_process_args` never reads.  All remaining flags only flow into the arguments
file, so they are kept as pre-rendered key/value strings in `extraArgs`.
Python `float` values (the discretization bounds) are kept as their literal
strings, since they are only passed through.  `tmapPfx` embeds the source
field `tensormap_` + `prefix`. -/
structure Args where
  output_folder : String
  id : String
  logging_level : String
  min_sample_id : Int
  u_connect : Option (List (String × String))
  pairs : Option (List (String × String))
  tmapPfx : String
  text_file : Option String
  hd5_as_text : Option String
  text_window : Int
  tensors : Option String
  input_tensors : List String
  output_tensors : List String
  protected_tensors : List String
  latent_input_file : Option String
  continuous_file : Option String
  continuous_file_columns : List String
  continuous_file_normalize : Bool
  continuous_file_discretization_bounds : List String
  categorical_file : Option String
  categorical_file_columns : List String
  latent_output_files : List String
  learning_rate_schedule : Option String
  patience : Int
  epochs : Int
  random_seed : Int
  eager : Bool
  parent_sort : Bool
  named_outputs : Bool
  extraArgs : List (String × String)

/-- The external generator and validation functions `_process_args` calls,
extending `Env`.  All are repository code outside the source files, modelled
from the spec, which designates "the tensor-map lookup/generation functions
(file-backed feature extraction)" as external collaborators; each is a pure
function of exactly the arguments the source passes.  `checkNoBottleneck`
models `check_no_bottleneck`, whose boolean result the source discards; the
spec's list of validation failures that raise does not include it, so it is
modelled as non-raising. -/
structure GenEnv extends Env where
  genRandomPixelMaps : Option String → Option String → Nat × Nat → TensorMap × TensorMap
  genRandomTextMaps : Option String → Int → TensorMap × TensorMap
  genLatentMap : Option String → String → TensorMap
  genContinuousMap : Option String → String → String → Bool → List String → TensorMap
  genCategoricalMap : Option String → String → String → TensorMap
  checkNoBottleneck : (TensorMap → Finset TensorMap) →
    List (Option TensorMap) → Bool

/-- The parent names of a possibly-`None` tensor map. -/
def parentsOf : Option TensorMap → List String
  | some tm => tm.parents
  | none => []

/-- The name of a possibly-`None` tensor map. -/
def nameOf : Option TensorMap → Option String :=
  Option.map TensorMap.name

/-- Kahn-style rounds of the dependency sort: move every pending map all of
whose parents already appear into the output; if a round makes no progress
(cycle or parent absent from the list) the remainder keeps its order. -/
def parentSortGo : Nat → List (Option TensorMap) → List (Option TensorMap) →
    List (Option TensorMap)
  | 0, pending, done => done ++ pending
  | fuel + 1, pending, done =>
    match pending.partition
        (fun t => (parentsOf t).all
          (fun p => done.any (fun d => nameOf d = some p))) with
    | ([], _) => done ++ pending
    | (ready, rest) => parentSortGo fuel rest (done ++ ready)

/-- Modelled from the spec: `parent_sort` (imported from
`ml4h.models.legacy_models`, not among the source files) "deduplicates/sorts
output tensors by dependency", "topologically ordering outputs by declared
parent dependency": duplicates are removed and every map is placed after the
maps named as its parents. -/
def parent_sort (l : List (Option TensorMap)) : List (Option TensorMap) :=
  parentSortGo l.length l.dedup []

/-- `l.pop(0)`: first element and remainder, `IndexError` when empty. -/
def popFront (l : List String) : Except PyError (String × List String) :=
  match l with
  | [] => Except.error (PyError.indexError "pop from empty list")
  | x :: xs => Except.ok (x, xs)

/-- `del l[0]`: remainder after the first element, `IndexError` when empty. -/
def delFront (l : List String) : Except PyError (List String) :=
  match l with
  | [] => Except.error (PyError.indexError "list assignment index out of range")
  | _ :: xs => Except.ok xs

/-- The list comprehension `[tensormap_lookup(t, tensormap_prefix) for t in l]`:
resolve identifiers left to right, the first raised exception propagating. -/
def lookupList (env : Env) (tmapPfx : String) :
    List String → Except PyError (List (Option TensorMap))
  | [] => Except.ok []
  | s :: rest =>
    match tensormap_lookup env s tmapPfx with
    | Except.error e => Except.error e
    | Except.ok o =>
      match lookupList env tmapPfx rest with
      | Except.error e => Except.error e
      | Except.ok l => Except.ok (o :: l)

/-- The `for column in args.continuous_file_columns` loop: one generated map
per column, each consuming `args.output_tensors.pop(0)`. -/
def continuousLoop (env : GenEnv) (file : Option String) (normalize : Bool)
    (bounds : List String) :
    List String → List String → Except PyError (List TensorMap × List String)
  | [], ots => Except.ok ([], ots)
  | col :: cols, ots =>
    match popFront ots with
    | Except.error e => Except.error e
    | Except.ok (name, ots2) =>
      match continuousLoop env file normalize bounds cols ots2 with
      | Except.error e => Except.error e
      | Except.ok (maps, ots3) =>
        Except.ok (env.genContinuousMap file col name normalize bounds :: maps, ots3)

/-- The `for column in args.categorical_file_columns` loop. -/
def categoricalLoop (env : GenEnv) (file : Option String) :
    List String → List String → Except PyError (List TensorMap × List String)
  | [], ots => Except.ok ([], ots)
  | col :: cols, ots =>
    match popFront ots with
    | Except.error e => Except.error e
    | Except.ok (name, ots2) =>
      match categoricalLoop env file cols ots2 with
      | Except.error e => Except.error e
      | Except.ok (maps, ots3) =>
        Except.ok (env.genCategoricalMap file col name :: maps, ots3)

/-- The `for lof in args.latent_output_files` loop. -/
def latentOutLoop (env : GenEnv) :
    List String → List String → Except PyError (List TensorMap × List String)
  | [], ots => Except.ok ([], ots)
  | lof :: lofs, ots =>
    match popFront ots with
    | Except.error e => Except.error e
    | Except.ok (name, ots2) =>
      match latentOutLoop env lofs ots2 with
      | Except.error e => Except.error e
      | Except.ok (maps, ots3) =>
        Except.ok (env.genLatentMap (some lof) name :: maps, ots3)

/-- The fields of `args` that `_process_args` fills in: the two dependency
structures and the three resolved tensor-map lists.  List elements are
`Option TensorMap` because `tensormap_lookup` can return `None`, which the
source appends unchecked. -/
structure Resolved where
  u_connect : TensorMap → Finset TensorMap
  pairs : List (Option TensorMap × Option TensorMap)
  tensor_maps_in : List (Option TensorMap)
  tensor_maps_out : List (Option TensorMap)
  tensor_maps_protected : List (Option TensorMap)

/-- The tensor-map resolution body of `_process_args` (lines 530-583), with
`tensor_maps_out` still in raw (pre-`parent_sort`) order: u-connect and pair
processing, the text/HD5 branch (which deletes the first input and output
identifiers), the latent-input pop, input lookups, the continuous,
categorical and latent-output loops (each popping output identifiers), output
lookups, and protected lookups.  The source computes `tensor_maps_protected`
after the sort, but the sort neither raises nor touches other fields, so
factoring it out below preserves behaviour. -/
def resolveMapsRaw (env : GenEnv) (a : Args) : Except PyError Resolved := do
  let uc ← processUConnectArgs env.toEnv a.u_connect a.tmapPfx
  let prs ← processPairArgs env.toEnv a.pairs a.tmapPfx
  let (tin0, tout0, its, ots) ←
    if a.text_file.isSome ∨ a.hd5_as_text.isSome then do
      let its ← delFront a.input_tensors
      let ots ← delFront a.output_tensors
      let maps :=
        if a.hd5_as_text.isSome then
          let w := Nat.sqrt a.text_window.toNat
          env.genRandomPixelMaps a.tensors a.hd5_as_text (w, w)
        else
          env.genRandomTextMaps a.text_file a.text_window
      Except.ok ([some maps.1], [some maps.2], its, ots)
    else
      Except.ok ([], [], a.input_tensors, a.output_tensors)
  let (tin1, its2) ←
    if a.latent_input_file.isSome then do
      let (name, its2) ← popFront its
      Except.ok ([some (env.genLatentMap a.latent_input_file name)], its2)
    else
      Except.ok ([], its)
  let tinRest ← lookupList env.toEnv a.tmapPfx its2
  let (contMaps, ots2) ←
    if a.continuous_file.isSome then
      continuousLoop env a.continuous_file a.continuous_file_normalize
        a.continuous_file_discretization_bounds a.continuous_file_columns ots
    else
      Except.ok ([], ots)
  let (catMaps, ots3) ←
    if a.categorical_file.isSome then
      categoricalLoop env a.categorical_file a.categorical_file_columns ots2
    else
      Except.ok ([], ots2)
  let (latentOutMaps, ots4) ← latentOutLoop env a.latent_output_files ots3
  let outRest ← lookupList env.toEnv a.tmapPfx ots4
  let protectedMaps ← lookupList env.toEnv a.tmapPfx a.protected_tensors
  Except.ok
    { u_connect := uc
      pairs := prs
      tensor_maps_in := tin0 ++ tin1 ++ tinRest
      tensor_maps_out :=
        tout0 ++ contMaps.map some ++ catMaps.map some
          ++ latentOutMaps.map some ++ outRest
      tensor_maps_protected := protectedMaps }

/-- The resolution body with `args.tensor_maps_out = parent_sort(...)`
(line 582) applied. -/
def resolveMaps (env : GenEnv) (a : Args) : Except PyError Resolved :=
  match resolveMapsRaw env a with
  | Except.error e => Except.error e
  | Except.ok r => Except.ok { r with tensor_maps_out := parent_sort r.tensor_maps_out }

/-- Python `s.startswith(t)`, on character lists. -/
def pyStartsWith (s t : String) : Bool := t.data.isPrefixOf s.data

/-- Python `s.endswith(t)`, on character lists. -/
def pyEndsWith (s t : String) : Bool := t.data.isSuffixOf s.data

/-- POSIX `os.path.join` for two components: an absolute second component
wins; otherwise a separator is inserted unless the first component is empty
or already ends with one. -/
def osPathJoin (p q : String) : String :=
  if pyStartsWith q "/" then q
  else if p = "" then p ++ q
  else if pyEndsWith p "/" then p ++ q
  else p ++ "/" ++ q

/-- Python `str(None)` / `str` of an optional string flag value. -/
def pyStrOfOpt : Option String → String
  | none => "None"
  | some s => s

/-- Python `str` of a boolean flag value. -/
def pyStrOfBool : Bool → String
  | true => "True"
  | false => "False"

/-- A single-quote character as a string (kept out of literals). -/
def quoteChar : String := String.mk [Char.ofNat 39]

/-- Python `repr` of a string: the string between single quotes. -/
def pyReprStr (s : String) : String := quoteChar ++ s ++ quoteChar

/-- Python `str` of a list of strings. -/
def pyStrOfList (l : List String) : String :=
  "[" ++ String.intercalate ", " (l.map pyReprStr) ++ "]"

/-- Python `str` of a list of bare (unquoted) literals, such as floats. -/
def pyStrOfBareList (l : List String) : String :=
  "[" ++ String.intercalate ", " l ++ "]"

/-- Python `str` of the `nargs=2, action=append` flags (`None` or a list of
two-element lists). -/
def pyStrOfOptPairs : Option (List (String × String)) → String
  | none => "None"
  | some l =>
    "[" ++ String.intercalate ", "
      (l.map (fun p => "[" ++ pyReprStr p.1 ++ ", " ++ pyReprStr p.2 ++ "]"))
      ++ "]"

/-- `args.__dict__` at entry to `_process_args`, as key/`str(value)` pairs:
the modelled fields followed by the pre-rendered remaining flags. -/
def argsDict (a : Args) : List (String × String) :=
  [
    ("output_folder", a.output_folder),
    ("id", a.id),
    ("logging_level", a.logging_level),
    ("min_sample_id", toString a.min_sample_id),
    ("u_connect", pyStrOfOptPairs a.u_connect),
    ("pairs", pyStrOfOptPairs a.pairs),
    ("tensormap_" ++ "prefix", a.tmapPfx),
    ("text_file", pyStrOfOpt a.text_file),
    ("hd5_as_text", pyStrOfOpt a.hd5_as_text),
    ("text_window", toString a.text_window),
    ("tensors", pyStrOfOpt a.tensors),
    ("input_tensors", pyStrOfList a.input_tensors),
    ("output_tensors", pyStrOfList a.output_tensors),
    ("protected_tensors", pyStrOfList a.protected_tensors),
    ("latent_input_file", pyStrOfOpt a.latent_input_file),
    ("continuous_file", pyStrOfOpt a.continuous_file),
    ("continuous_file_columns", pyStrOfList a.continuous_file_columns),
    ("continuous_file_normalize", pyStrOfBool a.continuous_file_normalize),
    ("continuous_file_discretization_bounds",
      pyStrOfBareList a.continuous_file_discretization_bounds),
    ("categorical_file", pyStrOfOpt a.categorical_file),
    ("categorical_file_columns", pyStrOfList a.categorical_file_columns),
    ("latent_output_files", pyStrOfList a.latent_output_files),
    ("learning_rate_schedule", pyStrOfOpt a.learning_rate_schedule),
    ("patience", toString a.patience),
    ("epochs", toString a.epochs),
    ("random_seed", toString a.random_seed),
    ("eager", pyStrOfBool a.eager),
    ("parent_sort", pyStrOfBool a.parent_sort),
    ("named_outputs", pyStrOfBool a.named_outputs),
  ] ++ a.extraArgs

/-- Ordering of dictionary items by key, Python
`sorted(args.__dict__.items(), key=operator.itemgetter(0))`. -/
def argKeyLE (p q : String × String) : Prop := p.1 ≤ q.1

instance : DecidableRel argKeyLE :=
  fun p q => inferInstanceAs (Decidable (p.1 ≤ q.1))

instance : IsTotal (String × String) argKeyLE :=
  ⟨fun p q => le_total p.1 q.1⟩

instance : IsTrans (String × String) argKeyLE :=
  ⟨fun _ _ _ h1 h2 => le_trans h1 h2⟩

/-- One `f.write(k + ' = ' + str(v) + '\n')` line. -/
def argLine (kv : String × String) : String := kv.1 ++ " = " ++ kv.2 ++ "\n"

/-- The `command_line` string of `_process_args` (line 522). -/
def commandLine (sysArgv : List String) : String :=
  "\n./scripts/tf.sh " ++ String.intercalate " " sysArgv ++ "\n"

/-- The full content written to the arguments file: the command line, then one
line per argument in ascending key order. -/
def argsFileContent (a : Args) (sysArgv : List String) : String :=
  commandLine sysArgv
    ++ String.join ((List.insertionSort argKeyLE (argsDict a)).map argLine)

/-- One produced file, by path and content. -/
structure FileWrite where
  path : String
  content : String
deriving DecidableEq

/-- The `ValueError` of the learning-rate-schedule/patience check
(line 588). -/
def lrScheduleError : PyError :=
  PyError.valueError
    "learning_rate_schedule is not compatible with ReduceLROnPlateau. Set patience > epochs."

/-- `_process_args(args)` from `ml4h/arguments.py` (lines 519-601):
the arguments file is written first (its directory being created for it);
`load_config` (logging setup, out of scope per the spec and not among the
source files) is modelled effect-free; then the tensor maps are resolved, the
discarded `check_no_bottleneck` call is made, and the learning-rate-schedule
check runs.  The trailing `np.random.seed`, logging statements and the eager
toggle neither raise nor produce persistent state.  `nowString` stands for
`datetime.datetime.now().strftime(...)` and `sysArgv` for `sys.argv`.  The
result is the list of files written and the outcome. -/
def processArgs (env : GenEnv) (a : Args) (sysArgv : List String)
    (nowString : String) : List FileWrite × Except PyError Resolved :=
  let args_file :=
    osPathJoin (osPathJoin a.output_folder a.id)
      ("arguments_" ++ nowString ++ ".txt")
  let result :=
    match resolveMaps env a with
    | Except.error e => Except.error e
    | Except.ok r =>
      let _ := env.checkNoBottleneck r.u_connect r.tensor_maps_out
      if a.learning_rate_schedule.isSome ∧ a.patience < a.epochs then
        Except.error lrScheduleError
      else
        Except.ok r
  ([⟨args_file, argsFileContent a sysArgv⟩], result)

/-- An environment in which no dynamic map matches, one module
`ml4h.tensormap.x` imports, and that module has no attributes at all. -/
def envEmptyModule : Env where
  mgbDynamic := fun _ => none
  testMaps := fun _ => none
  modules := fun s => if s = "ml4h.tensormap.x" then some ⟨fun _ => none⟩ else none

example :
    tensormap_lookup envEmptyModule "x.y" "ml4h.tensormap" = Except.ok none := by
  rfl

example :
    tensormap_lookup envEmptyModule "" "ml4h.tensormap" =
      Except.error (PyError.valueError "Input name cannot be empty.") := by
  rfl

/-- Concrete feature descriptors for witnesses: `tmA`/`tmB` share all but the
channel dimension, `tmC`/`tmD` are 1-dimensional. -/
def tmA : TensorMap := ⟨"a", [4, 3], []⟩

/-- A 2-axis map whose non-channel dimensions match `tmA`. -/
def tmB : TensorMap := ⟨"b", [4, 5], []⟩

/-- A 1-axis (1d) map. -/
def tmC : TensorMap := ⟨"c", [3], []⟩

/-- Another 1d map; its non-channel shape `[]` matches `tmC`. -/
def tmD : TensorMap := ⟨"d", [5], []⟩

/-- A lookup environment resolving `m.a`, `m.b`, `m.c`, `m.d` through the
module `ml4h.tensormap.m`. -/
def envW : Env where
  mgbDynamic := fun _ => none
  testMaps := fun _ => none
  modules := fun s =>
    if s = "ml4h.tensormap.m" then
      some ⟨fun n =>
        if n = "a" then some (PyAttr.tmap tmA)
        else if n = "b" then some (PyAttr.tmap tmB)
        else if n = "c" then some (PyAttr.tmap tmC)
        else if n = "d" then some (PyAttr.tmap tmD)
        else none⟩
    else none

example : tensormap_lookup envW "m.a" "ml4h.tensormap" = Except.ok (some tmA) := by
  rfl

/-- `envW` extended with trivial generator functions, for `_process_args`
witnesses. -/
def genEnvW : GenEnv where
  toEnv := envW
  genRandomPixelMaps := fun _ _ _ => (tmA, tmB)
  genRandomTextMaps := fun _ _ => (tmA, tmB)
  genLatentMap := fun _ _ => tmA
  genContinuousMap := fun _ _ _ _ _ => tmA
  genCategoricalMap := fun _ _ _ => tmA
  checkNoBottleneck := fun _ _ => true

/-- Fully-resolved argument namespace with no tensors declared and an active
learning-rate schedule. -/
def argsW0 : Args where
  output_folder := "out"
  id := "run1"
  logging_level := "INFO"
  min_sample_id := 0
  u_connect := none
  pairs := none
  tmapPfx := "ml4h.tensormap"
  text_file := none
  hd5_as_text := none
  text_window := 32
  tensors := none
  input_tensors := []
  output_tensors := []
  protected_tensors := []
  latent_input_file := none
  continuous_file := none
  continuous_file_columns := []
  continuous_file_normalize := false
  continuous_file_discretization_bounds := []
  categorical_file := none
  categorical_file_columns := []
  latent_output_files := []
  learning_rate_schedule := some "triangular"
  patience := 8
  epochs := 10
  random_seed := 12878
  eager := false
  parent_sort := true
  named_outputs := false
  extraArgs := []

/-- `argsW0` without a learning-rate schedule and with one output tensor. -/
def argsW1 : Args :=
  { argsW0 with learning_rate_schedule := none, output_tensors := ["m.a"] }

/- ======================  Claim theorems  ====================== -/

/-- Claim C3: `generate_tensormap_id` and `generate_model_id` are
deterministic: on equal string representations of the tensor maps they return
identical hex-digest identifiers, so resolving the same flags twice yields
identical derived identifiers. -/
theorem generate_id_deterministic (tm1 tm2 : TensorMap) (name1 name2 : String)
    (tin1 tin2 tout1 tout2 : List TensorMap)
    (h : tm1.pyStr = tm2.pyStr)
    (hi : tin1.map TensorMap.pyStr = tin2.map TensorMap.pyStr)
    (ho : tout1.map TensorMap.pyStr = tout2.map TensorMap.pyStr) :
    generate_tensormap_id tm1 = generate_tensormap_id tm2 ∧
    generate_model_id name1 tin1 tout1 = generate_model_id name2 tin2 tout2 := by
  unfold generate_tensormap_id generate_model_id
  rw [h, hi, ho]
  exact ⟨rfl, rfl⟩

/-- Witness for C3 at concrete maps. -/
theorem generate_id_deterministic_witness :
    generate_tensormap_id tmA = generate_tensormap_id tmA ∧
    generate_model_id "run1" [tmA] [tmB] = generate_model_id "run2" [tmA] [tmB] :=
  generate_id_deterministic tmA tmA "run1" "run2" [tmA] [tmA] [tmB] [tmB]
    rfl rfl rfl

/-- Claim C8: the identifier `generate_model_id` returns is independent of its
`model_name` argument: it is content-addressed by the tensor maps only. -/
theorem model_id_ignores_model_name (n1 n2 : String)
    (tin tout : List TensorMap) :
    generate_model_id n1 tin tout = generate_model_id n2 tin tout := rfl

/-- Claim C2, as stated, is false: in `envEmptyModule` the identifier `x.y`
resolves its module but not the attribute, and `tensormap_lookup` returns the
non-TensorMap value `None` instead of raising. -/
theorem tensormap_lookup_unresolved_counterexample :
    ¬ ∀ (env : Env) (s p : String),
        (∀ tm, tensormap_lookup env s p ≠ Except.ok (some tm)) →
        ∃ e, tensormap_lookup env s p = Except.error e := by
  intro h
  have hv : tensormap_lookup envEmptyModule "x.y" "ml4h.tensormap" =
      Except.ok none := by rfl
  obtain ⟨e, he⟩ := h envEmptyModule "x.y" "ml4h.tensormap"
    (fun tm hc => by rw [hv] at hc; exact Option.noConfusion (Except.ok.inj hc))
  rw [hv] at he
  exact Except.noConfusion he

/-- Claim C2 amended: every lookup either raises, returns a `TensorMap`, or —
exactly when the containing module imports but has no attribute of the target
name — logs a warning and returns `None` rather than raising. -/
theorem tensormap_lookup_unresolved_outcomes (env : Env) (s p : String) :
    (∃ e, tensormap_lookup env s p = Except.error e) ∨
    (∃ tm, tensormap_lookup env s p = Except.ok (some tm)) ∨
    (tensormap_lookup env s p = Except.ok none ∧
      ∃ m, env.modules (moduleNameOf s p) = some m ∧
        m.attrs (attrNameOf s p) = none) := by
  cases hres : tensormap_lookup env s p with
  | error e => exact Or.inl ⟨e, rfl⟩
  | ok o =>
    cases o with
    | some tm => exact Or.inr (Or.inl ⟨tm, rfl⟩)
    | none =>
      refine Or.inr (Or.inr ⟨rfl, ?_⟩)
      unfold tensormap_lookup at hres
      cases hm : env.mgbDynamic s with
      | some tm => simp [hm] at hres
      | none =>
        simp only [hm] at hres
        cases ht : env.testMaps s with
        | some tm => simp [ht] at hres
        | none =>
          simp only [ht] at hres
          by_cases hlen : s.length = 0
          · simp [hlen] at hres
          · simp only [if_neg hlen] at hres
            by_cases hr : p = "" ∧
                String.intercalate "." ((pySplitDot s).take 2) ≠ "ml4h.tensormap"
            · simp only [if_pos hr] at hres
              exact Except.noConfusion hres
            · simp only [if_neg hr] at hres
              cases hmod : env.modules (moduleNameOf s p) with
              | none => simp [hmod] at hres
              | some m =>
                simp only [hmod] at hres
                cases hattr : m.attrs (attrNameOf s p) with
                | none => exact ⟨m, rfl, hattr⟩
                | some att =>
                  cases att with
                  | tmap tm => simp [hattr] at hres
                  | other ty => simp [hattr] at hres

/-- Membership in the adjacency mapping after one defaultdict insertion. -/
theorem mem_adjInsert (m : TensorMap → Finset TensorMap) (a b x y : TensorMap) :
    y ∈ adjInsert m a b x ↔ (x = a ∧ y = b) ∨ y ∈ m x := by
  unfold adjInsert
  by_cases h : x = a
  · subst h; simp [Finset.mem_insert]
  · simp [h]

/-- Inversion of a successful u-connect pair step: both keys resolved, the
result is exactly the insertion of the resolved edge, and the two validations
passed. -/
theorem processUConnectPair_ok_inv (env : Env) (p : String)
    (m0 m2 : TensorMap → Finset TensorMap) (q : String × String)
    (h : processUConnectPair env p m0 q = Except.ok m2) :
    ∃ tin tout, tensormap_lookup env q.1 p = Except.ok (some tin) ∧
      tensormap_lookup env q.2 p = Except.ok (some tout) ∧
      m2 = adjInsert m0 tin tout ∧
      tin.shape.dropLast = tout.shape.dropLast ∧
      2 ≤ tin.axes ∧ 2 ≤ tout.axes := by
  unfold processUConnectPair at h
  cases h1 : tensormap_lookup env q.1 p with
  | error e => simp [h1] at h
  | ok oin =>
    cases h2 : tensormap_lookup env q.2 p with
    | error e => simp [h1, h2] at h
    | ok oout =>
      cases oin with
      | none => simp [h1, h2] at h
      | some tin =>
        cases oout with
        | none => simp [h1, h2] at h
        | some tout =>
          simp only [h1, h2] at h
          by_cases hs : tin.shape.dropLast ≠ tout.shape.dropLast
          · rw [if_pos hs] at h; exact Except.noConfusion h
          · rw [if_neg hs] at h
            by_cases h1d : tin.axes < 2 ∨ tout.axes < 2
            · rw [if_pos h1d] at h; exact Except.noConfusion h
            · rw [if_neg h1d] at h
              refine ⟨tin, tout, rfl, rfl, (Except.ok.inj h).symm,
                not_not.mp hs, ?_, ?_⟩ <;> omega

/-- A successful u-connect loop validated every declared pair: both keys
resolved and the shape and axis checks passed. -/
theorem uConnectLoop_ok_pairs (env : Env) (p : String)
    (l : List (String × String)) :
    ∀ (m0 m : TensorMap → Finset TensorMap),
      uConnectLoop env p l m0 = Except.ok m →
      ∀ q ∈ l, ∃ tin tout,
        tensormap_lookup env q.1 p = Except.ok (some tin) ∧
        tensormap_lookup env q.2 p = Except.ok (some tout) ∧
        tin.shape.dropLast = tout.shape.dropLast ∧
        2 ≤ tin.axes ∧ 2 ≤ tout.axes := by
  induction l with
  | nil => intro m0 m h q hq; exact absurd hq (List.not_mem_nil q)
  | cons q0 rest ih =>
    intro m0 m h q hq
    unfold uConnectLoop at h
    cases hstep : processUConnectPair env p m0 q0 with
    | error e => simp [hstep] at h
    | ok m2 =>
      simp only [hstep] at h
      rcases List.mem_cons.mp hq with rfl | hqr
      · obtain ⟨tin, tout, h1, h2, -, hsh, hax1, hax2⟩ :=
          processUConnectPair_ok_inv env p m0 m2 q hstep
        exact ⟨tin, tout, h1, h2, hsh, hax1, hax2⟩
      · exact ih m2 m h q hqr

/-- Claim C1: for a declared u_connect pair whose resolved maps differ in a
non-channel dimension, the pair step raises the shape `TypeError` and
`_process_u_connect_args` never returns a mapping; when all non-channel
dimensions match and both maps have at least two axes, the pair is accepted
into the adjacency mapping. -/
theorem u_connect_shape_validation (env : Env) (p : String)
    (l : List (String × String)) (q : String × String) (hq : q ∈ l)
    (m0 : TensorMap → Finset TensorMap) (tin tout : TensorMap)
    (ha : tensormap_lookup env q.1 p = Except.ok (some tin))
    (hb : tensormap_lookup env q.2 p = Except.ok (some tout)) :
    (tin.shape.dropLast ≠ tout.shape.dropLast →
      processUConnectPair env p m0 q =
        Except.error (PyError.typeError (uConnectShapeMsg tin tout)) ∧
      ∀ m, processUConnectArgs env (some l) p ≠ Except.ok m) ∧
    (tin.shape.dropLast = tout.shape.dropLast →
      2 ≤ tin.axes → 2 ≤ tout.axes →
      processUConnectPair env p m0 q =
        Except.ok (adjInsert m0 tin tout)) := by
  constructor
  · intro hne
    constructor
    · simp [processUConnectPair, ha, hb, hne]
    · intro m hok
      obtain ⟨tin2, tout2, ha2, hb2, hsh, -, -⟩ :=
        uConnectLoop_ok_pairs env p l (fun _ => ∅) m hok q hq
      rw [ha] at ha2
      rw [hb] at hb2
      cases Option.some.inj (Except.ok.inj ha2)
      cases Option.some.inj (Except.ok.inj hb2)
      exact hne hsh
  · intro heq h2in h2out
    have hnot : ¬ (tin.axes < 2 ∨ tout.axes < 2) := by omega
    simp [processUConnectPair, ha, hb, heq, hnot]

/-- Witness for C1: `m.a`/`m.b` (matching non-channel shapes, 2 axes) is
accepted; `m.a`/`m.c` (mismatched non-channel shapes) raises and the whole
processing returns no mapping. -/
theorem u_connect_shape_validation_witness :
    (processUConnectPair envW "ml4h.tensormap" (fun _ => ∅) ("m.a", "m.c") =
        Except.error (PyError.typeError (uConnectShapeMsg tmA tmC)) ∧
      ∀ m, processUConnectArgs envW (some [("m.a", "m.c")]) "ml4h.tensormap" ≠
        Except.ok m) ∧
    processUConnectPair envW "ml4h.tensormap" (fun _ => ∅) ("m.a", "m.b") =
      Except.ok (adjInsert (fun _ => ∅) tmA tmB) :=
  ⟨(u_connect_shape_validation envW "ml4h.tensormap" [("m.a", "m.c")]
      ("m.a", "m.c") (by simp) (fun _ => ∅) tmA tmC (by rfl) (by rfl)).1
      (by decide),
    (u_connect_shape_validation envW "ml4h.tensormap" [("m.a", "m.b")]
      ("m.a", "m.b") (by simp) (fun _ => ∅) tmA tmB (by rfl) (by rfl)).2
      (by decide) (by decide) (by decide)⟩

/-- Claim C10: a declared u_connect pair in which either resolved map has
fewer than 2 axes raises `TypeError` even when the non-channel shapes
match. -/
theorem u_connect_1d_rejected (env : Env) (p : String)
    (m : TensorMap → Finset TensorMap) (ka kb : String) (tin tout : TensorMap)
    (ha : tensormap_lookup env ka p = Except.ok (some tin))
    (hb : tensormap_lookup env kb p = Except.ok (some tout))
    (hshape : tin.shape.dropLast = tout.shape.dropLast)
    (h1d : tin.axes < 2 ∨ tout.axes < 2) :
    processUConnectPair env p m (ka, kb) =
      Except.error (PyError.typeError (uConnect1dMsg tin tout)) := by
  simp [processUConnectPair, ha, hb, hshape, h1d]

/-- Witness for C10: the 1d pair `m.c`/`m.d` has matching non-channel shapes
yet is rejected. -/
theorem u_connect_1d_rejected_witness :
    processUConnectPair envW "ml4h.tensormap" (fun _ => ∅) ("m.c", "m.d") =
      Except.error (PyError.typeError (uConnect1dMsg tmC tmD)) :=
  u_connect_1d_rejected envW "ml4h.tensormap" (fun _ => ∅) "m.c" "m.d"
    tmC tmD (by rfl) (by rfl) (by decide) (Or.inl (by decide))

/-- Membership after the u-connect loop: an edge is present exactly when it
was in the accumulator or one of the remaining declared pairs resolves to
it. -/
theorem uConnectLoop_mem (env : Env) (p : String) (l : List (String × String)) :
    ∀ (m0 m : TensorMap → Finset TensorMap),
      uConnectLoop env p l m0 = Except.ok m →
      ∀ a b : TensorMap, b ∈ m a ↔ b ∈ m0 a ∨
        ∃ q ∈ l, tensormap_lookup env q.1 p = Except.ok (some a) ∧
          tensormap_lookup env q.2 p = Except.ok (some b) := by
  induction l with
  | nil =>
    intro m0 m h a b
    unfold uConnectLoop at h
    cases Except.ok.inj h
    simp
  | cons q rest ih =>
    intro m0 m h a b
    unfold uConnectLoop at h
    cases hstep : processUConnectPair env p m0 q with
    | error e => simp [hstep] at h
    | ok m2 =>
      simp only [hstep] at h
      obtain ⟨tin, tout, hq1, hq2, hm2, -, -, -⟩ :=
        processUConnectPair_ok_inv env p m0 m2 q hstep
      subst hm2
      rw [ih (adjInsert m0 tin tout) m h a b, mem_adjInsert]
      constructor
      · rintro ((⟨rfl, rfl⟩ | hb) | ⟨q', hq', hr1, hr2⟩)
        · exact Or.inr ⟨q, List.mem_cons_self q rest, hq1, hq2⟩
        · exact Or.inl hb
        · exact Or.inr ⟨q', List.mem_cons_of_mem q hq', hr1, hr2⟩
      · rintro (hb | ⟨q', hq', hr1, hr2⟩)
        · exact Or.inl (Or.inr hb)
        · rcases List.mem_cons.mp hq' with rfl | hq'rest
          · have ha2 : a = tin := by
              rw [hq1] at hr1
              exact (Option.some.inj (Except.ok.inj hr1)).symm
            have hb2 : b = tout := by
              rw [hq2] at hr2
              exact (Option.some.inj (Except.ok.inj hr2)).symm
            exact Or.inl (Or.inl ⟨ha2, hb2⟩)
          · exact Or.inr ⟨q', hq'rest, hr1, hr2⟩

/-- The pair loop resolves the declared pairs elementwise, in order. -/
theorem pairLoop_forall2 (env : Env) (p : String) (l : List (String × String)) :
    ∀ r, pairLoop env p l = Except.ok r →
      List.Forall₂
        (fun (q : String × String) (o : Option TensorMap × Option TensorMap) =>
          tensormap_lookup env q.1 p = Except.ok o.1 ∧
          tensormap_lookup env q.2 p = Except.ok o.2) l r := by
  induction l with
  | nil =>
    intro r h
    unfold pairLoop at h
    cases Except.ok.inj h
    exact List.Forall₂.nil
  | cons q rest ih =>
    intro r h
    unfold pairLoop at h
    cases h1 : tensormap_lookup env q.1 p with
    | error e => simp [h1] at h
    | ok o1 =>
      cases h2 : tensormap_lookup env q.2 p with
      | error e => simp [h1, h2] at h
      | ok o2 =>
        cases h3 : pairLoop env p rest with
        | error e => simp [h1, h2, h3] at h
        | ok lrest =>
          simp only [h1, h2, h3] at h
          cases Except.ok.inj h
          exact List.Forall₂.cons ⟨h1, h2⟩ (ih lrest h3)

/-- Claim C7: the two dependency structures are populated exactly from the
declared pairs: the u-connect adjacency mapping contains an edge iff some
declared pair resolves to it, and `_process_pair_args` returns the resolved
pairs in the same order and of the same length as the declared list. -/
theorem dependency_structures_from_declared_pairs (env : Env) (p : String)
    (ucl prl : List (String × String)) (m : TensorMap → Finset TensorMap)
    (l : List (Option TensorMap × Option TensorMap))
    (hu : processUConnectArgs env (some ucl) p = Except.ok m)
    (hpr : processPairArgs env (some prl) p = Except.ok l) :
    (∀ a b : TensorMap, b ∈ m a ↔
      ∃ q ∈ ucl, tensormap_lookup env q.1 p = Except.ok (some a) ∧
        tensormap_lookup env q.2 p = Except.ok (some b)) ∧
    List.Forall₂
      (fun (q : String × String) (o : Option TensorMap × Option TensorMap) =>
        tensormap_lookup env q.1 p = Except.ok o.1 ∧
        tensormap_lookup env q.2 p = Except.ok o.2) prl l := by
  constructor
  · intro a b
    have hmem := uConnectLoop_mem env p ucl (fun _ => ∅) m hu a b
    simpa using hmem
  · exact pairLoop_forall2 env p prl l hpr

/-- Witness for C7 at one declared u-connect pair and one declared loss
pair. -/
theorem dependency_structures_witness :
    tmB ∈ adjInsert (fun _ => ∅) tmA tmB tmA ∧
    List.Forall₂
      (fun (q : String × String) (o : Option TensorMap × Option TensorMap) =>
        tensormap_lookup envW q.1 "ml4h.tensormap" = Except.ok o.1 ∧
        tensormap_lookup envW q.2 "ml4h.tensormap" = Except.ok o.2)
      [("m.c", "m.d")] [(some tmC, some tmD)] :=
  have h := dependency_structures_from_declared_pairs envW "ml4h.tensormap"
    [("m.a", "m.b")] [("m.c", "m.d")] (adjInsert (fun _ => ∅) tmA tmB)
    [(some tmC, some tmD)] (by rfl) (by rfl)
  ⟨(h.1 tmA tmB).mpr ⟨("m.a", "m.b"), by simp, by rfl, by rfl⟩, h.2⟩

/-- Claim C5: once the tensor maps resolve, `_process_args` raises the
learning-rate-schedule `ValueError` exactly when `learning_rate_schedule` is
set and `patience < epochs`; otherwise it returns the resolved maps
unchanged. -/
theorem lr_schedule_patience_check (env : GenEnv) (a : Args)
    (argv : List String) (now : String)
    (h : (resolveMaps env a).isOk = true) :
    ((processArgs env a argv now).2 = Except.error lrScheduleError ↔
      a.learning_rate_schedule.isSome = true ∧ a.patience < a.epochs) ∧
    (¬ (a.learning_rate_schedule.isSome = true ∧ a.patience < a.epochs) →
      (processArgs env a argv now).2 = resolveMaps env a) := by
  unfold processArgs
  cases hr : resolveMaps env a with
  | error e => rw [hr] at h; simp [Except.isOk, Except.toBool] at h
  | ok r =>
    by_cases hc : a.learning_rate_schedule.isSome = true ∧ a.patience < a.epochs
    · simp [hr, hc]
    · simp [hr, hc]

/-- Witness for C5: with a schedule set and `patience = 8 < epochs = 10`, the
check raises. -/
theorem lr_schedule_patience_check_witness :
    (processArgs genEnvW argsW0 [] "2024-01-01_00-00").2 =
      Except.error lrScheduleError :=
  ((lr_schedule_patience_check genEnvW argsW0 [] "2024-01-01_00-00"
      (by rfl)).1).mpr ⟨rfl, by decide⟩

/-- Claim C4: whenever `_process_args` succeeds, its final `tensor_maps_out`
is `parent_sort` applied to the full list of resolved output tensor maps. -/
theorem tensor_maps_out_parent_sorted (env : GenEnv) (a : Args)
    (argv : List String) (now : String) (r r0 : Resolved)
    (h : (processArgs env a argv now).2 = Except.ok r)
    (h0 : resolveMapsRaw env a = Except.ok r0) :
    r.tensor_maps_out = parent_sort r0.tensor_maps_out := by
  unfold processArgs resolveMaps at h
  simp only [h0] at h
  by_cases hc : a.learning_rate_schedule.isSome = true ∧ a.patience < a.epochs
  · simp [hc] at h
  · simp only [if_neg hc] at h
    rw [← Except.ok.inj h]

/-- A resolved namespace with the single output `tmA`, as produced for
`argsW1`. -/
def resolvedW : Resolved where
  u_connect := fun _ => ∅
  pairs := []
  tensor_maps_in := []
  tensor_maps_out := [some tmA]
  tensor_maps_protected := []

/-- `resolvedW` after the dependency sort. -/
def sortedW : Resolved :=
  { resolvedW with tensor_maps_out := parent_sort [some tmA] }

/-- Witness for C4 on a namespace with one declared output tensor. -/
theorem tensor_maps_out_parent_sorted_witness :
    sortedW.tensor_maps_out = parent_sort resolvedW.tensor_maps_out :=
  tensor_maps_out_parent_sorted genEnvW argsW1 [] "2024-01-01_00-00"
    sortedW resolvedW (by rfl) (by rfl)

/-- Claim C9: the `--parent_sort` flag has no effect on the resolution
outcome: two invocations differing only in its value produce identical
`tensor_maps_out` (the sort is applied unconditionally). -/
theorem parent_sort_flag_no_effect (env : GenEnv) (a : Args)
    (argv : List String) (now : String) (v : Bool) :
    ((processArgs env { a with parent_sort := v } argv now).2).map
        Resolved.tensor_maps_out =
      ((processArgs env a argv now).2).map Resolved.tensor_maps_out := by
  cases a
  rfl

/-- The arguments-file name never starts with a path separator. -/
theorem pyStartsWith_argumentsFile (now : String) :
    pyStartsWith ("arguments_" ++ now ++ ".txt") "/" = false := rfl

/-- Appending cannot erase a nonempty string. -/
theorem append_ne_empty (s t : String) (h : s ≠ "") : s ++ t ≠ "" := by
  intro he
  apply h
  have hd := congrArg String.data he
  rw [String.data_append] at hd
  exact String.ext (List.append_eq_nil.mp hd).1

/-- A singleton suffix only looks at the nonempty right part of an append. -/
theorem isSuffixOf_singleton_append (c : Char) (X Y : List Char) (hY : Y ≠ []) :
    List.isSuffixOf [c] (X ++ Y) = List.isSuffixOf [c] Y := by
  unfold List.isSuffixOf
  rw [List.reverse_append]
  cases hYr : Y.reverse with
  | nil => exact absurd (List.reverse_eq_nil_iff.mp hYr) hY
  | cons c2 t =>
    simp [List.isPrefixOf]

/-- Whether a path assembled as `f ++ "/" ++ id` ends with a separator depends
only on the nonempty `id` part. -/
theorem pyEndsWith_concat (f idStr : String) (hid : idStr ≠ "") :
    pyEndsWith (f ++ "/" ++ idStr) "/" = pyEndsWith idStr "/" := by
  unfold pyEndsWith
  rw [String.data_append, String.data_append]
  rw [show ("/" : String).data = [Char.ofNat 47] from rfl]
  exact isSuffixOf_singleton_append (Char.ofNat 47) _ _
    (fun hn => hid (String.ext hn))

/-- `os.path.join` in the common case: relative second component, nonempty
first component without a trailing separator. -/
theorem osPathJoin_normal (p q : String) (hq : pyStartsWith q "/" = false)
    (hp1 : p ≠ "") (hp2 : pyEndsWith p "/" = false) :
    osPathJoin p q = p ++ "/" ++ q := by
  simp [osPathJoin, hq, hp1, hp2]

/-- Claim C6: every `_process_args` invocation produces exactly one file, at
`<output_folder>/<id>/arguments_<timestamp>.txt` (for well-formed folder and
id components), containing the command line followed by one `key = value`
line per argument, with the keys in ascending sorted order covering every
argument exactly once. -/
theorem arguments_file_write (env : GenEnv) (a : Args) (argv : List String)
    (now : String)
    (hof : a.output_folder ≠ "") (hofe : pyEndsWith a.output_folder "/" = false)
    (hid0 : a.id ≠ "") (hids : pyStartsWith a.id "/" = false)
    (hide : pyEndsWith a.id "/" = false) :
    (processArgs env a argv now).1 =
      [⟨a.output_folder ++ "/" ++ a.id ++ "/" ++ ("arguments_" ++ now ++ ".txt"),
        commandLine argv
          ++ String.join
            ((List.insertionSort argKeyLE (argsDict a)).map argLine)⟩] ∧
    List.Sorted argKeyLE (List.insertionSort argKeyLE (argsDict a)) ∧
    List.Perm (List.insertionSort argKeyLE (argsDict a)) (argsDict a) := by
  refine ⟨?_, List.sorted_insertionSort argKeyLE (argsDict a),
    List.perm_insertionSort argKeyLE (argsDict a)⟩
  have h1 : osPathJoin a.output_folder a.id = a.output_folder ++ "/" ++ a.id :=
    osPathJoin_normal _ _ hids hof hofe
  have h2 : osPathJoin (osPathJoin a.output_folder a.id)
      ("arguments_" ++ now ++ ".txt") =
      a.output_folder ++ "/" ++ a.id ++ "/" ++ ("arguments_" ++ now ++ ".txt") := by
    rw [h1]
    exact osPathJoin_normal _ _ (pyStartsWith_argumentsFile now)
      (append_ne_empty _ _ (append_ne_empty _ _ hof))
      (by rw [pyEndsWith_concat a.output_folder a.id hid0]; exact hide)
  have hfst : (processArgs env a argv now).1 =
      [⟨osPathJoin (osPathJoin a.output_folder a.id)
          ("arguments_" ++ now ++ ".txt"), argsFileContent a argv⟩] := rfl
  rw [hfst, h2]
  rfl

/-- Witness for C6 on `argsW1` (`output_folder = "out"`, `id = "run1"`). -/
theorem arguments_file_write_witness :
    (processArgs genEnvW argsW1 [] "2024-01-01_00-00").1 =
      [⟨"out" ++ "/" ++ "run1" ++ "/"
          ++ ("arguments_" ++ "2024-01-01_00-00" ++ ".txt"),
        commandLine []
          ++ String.join
            ((List.insertionSort argKeyLE (argsDict argsW1)).map argLine)⟩] ∧
    List.Sorted argKeyLE (List.insertionSort argKeyLE (argsDict argsW1)) ∧
    List.Perm (List.insertionSort argKeyLE (argsDict argsW1)) (argsDict argsW1) :=
  arguments_file_write genEnvW argsW1 [] "2024-01-01_00-00"
    (by decide) (by decide) (by decide) (by decide) (by decide)

end ML4H
